import Mathlib

/-!
Verification of the typed query layer over the hash-bucketed `CDClient.fdb`
store (crate `paradox-typed-db`, files `src/lib.rs` and `src/typed_rows.rs`).

The external collaborators (the `assembly_fdb` raw table structures, the
generated per-table column metadata and the `ext` record structs) are not part
of the sources; they are modelled from the specification of their interfaces.
Everything else is translated from `src/lib.rs`.

Rust panics (`unwrap`, `expect`, remainder by zero) are made explicit: every
operation that can panic is embedded as an `Except String` computation whose
`error` case is the panic.
-/

namespace TypedDb

/-- Modelled from the spec: the `Field`/`Value` variant type of the external
`assembly_fdb` crate; it decodes to signed-32 integer, 32-bit float (kept as
its raw bit pattern, which is never compared by the queries under study),
boolean, Latin-1 text, or null/absent. Equality is variant-wise, text
comparing by byte content. -/
inductive Value where
  | nothing : Value
  | integer (v : Int) : Value
  | float (bits : Nat) : Value
  | text (s : String) : Value
  | boolean (b : Bool) : Value
  deriving DecidableEq, Repr

/-- Modelled from the spec: `Field` decoder to an optional integer. -/
def Value.into_opt_integer : Value → Option Int
  | .integer v => some v
  | _ => none

/-- Modelled from the spec: `Field` decoder to an optional (borrowed) text. -/
def Value.into_opt_text : Value → Option String
  | .text s => some s
  | _ => none

/-- Modelled from the spec: `Field` decoder to an optional boolean. -/
def Value.into_opt_boolean : Value → Option Bool
  | .boolean b => some b
  | _ => none

/-- Modelled from the spec: a raw row is a sequence of fields in declared
column order; `field_at i` is partial, `field_iter` walks the sequence. -/
abbrev Row := List Value

/-- Modelled from the spec: a bucket holds its rows in stored order. -/
abbrev Bucket := List Row

/-- Modelled from the spec: a raw table as exposed by `assembly_fdb`:
a bucket count, the buckets themselves, and the schema header of column
names used by the generated column resolution. In a well-formed file
`bucket_count = buckets.length`; the spec's "should not occur" failure case
is a table where they disagree. -/
structure Table where
  bucket_count : Nat
  buckets : List Bucket
  columns : List String
  deriving DecidableEq, Repr

/-- Modelled from the spec: `Table.bucket_at(index) -> Bucket | none`. -/
def Table.bucket_at (t : Table) (i : Nat) : Option Bucket :=
  t.buckets[i]?

/-- Modelled from the spec: `Table.bucket_for_hash(hash: unsigned-32) -> Bucket`;
the bucket index is the hash modulo the bucket count. The spec declares it
total, so the malformed-table case resolves to the empty bucket here. -/
def Table.bucket_for_hash (t : Table) (h : Nat) : Bucket :=
  (t.bucket_at (h % t.bucket_count)).getD []

/-- The unsigned 32-bit reinterpretation performed by
`u32::from_ne_bytes(id.to_ne_bytes())` in `src/lib.rs`: the byte image is
reused, so an `i32` key `k` becomes `k mod 2^32` as an unsigned value. -/
def u32_of_i32 (k : Int) : Nat :=
  (k % (2 ^ 32 : Int)).toNat

/-- The conversion performed by `index_key as usize` in `TypedRow::get`
(`src/lib.rs` line 74) on a 64-bit target: Rust sign-extends the signed
32-bit key to the 64-bit machine word. -/
def usize_of_i32 (k : Int) : Nat :=
  (k % (2 ^ 64 : Int)).toNat

/-- Follows the spec's words (§4.2 step 1): "Reinterpret the signed 32-bit
lookup key as an unsigned 32-bit bit pattern ... negative keys map to large
unsigned values". -/
def spec_u32_reinterpret (k : Int) : Nat :=
  (if k < 0 then k + 2 ^ 32 else k).toNat

/-- Follows the spec's words (§4.2 step 2): "Bucket index = that unsigned
value modulo the table's bucket count". -/
def spec_bucket_index (n : Nat) (k : Int) : Nat :=
  spec_u32_reinterpret k % n

/-- The bucket index computed by `TypedRow::get` (`src/lib.rs` line 74):
`index_key as usize % table.as_raw().bucket_count()`. -/
def TypedRow.get_bucket_index (t : Table) (index_key : Int) : Nat :=
  usize_of_i32 index_key % t.bucket_count

/-- The bucket index computed inline by the derived domain queries
(`src/lib.rs` lines 288, 343, 366): `hash as usize % table.bucket_count()`
where `hash = u32::from_ne_bytes(id.to_ne_bytes())`; `u32 as usize` is a
zero-extension. -/
def domain_bucket_index (t : Table) (id : Int) : Nat :=
  u32_of_i32 id % t.bucket_count

/-- The bucket scan of `TypedRow::get` (`src/lib.rs` lines 76-80): return the
first row whose field at `id_col` decodes to the integer `key`; `field_at`
and the decode are combined through `and_then`, so no panic is possible. -/
def TypedRow.get_scan (key : Int) (id_col : Nat) : Bucket → Option Row
  | [] => none
  | r :: rest =>
    if (r[id_col]?.bind Value.into_opt_integer) = some key then some r
    else TypedRow.get_scan key id_col rest

/-- `TypedRow::get` (`src/lib.rs` lines 70-83). The `error` case is the Rust
panic of `%` when the bucket count is zero; an absent bucket yields `none`
through the `if let`. -/
def TypedRow.get (t : Table) (index_key key : Int) (id_col : Nat) :
    Except String (Option Row) :=
  if t.bucket_count = 0 then
    .error "attempt to calculate the remainder with a divisor of zero"
  else
    match t.bucket_at (TypedRow.get_bucket_index t index_key) with
    | some b => .ok (TypedRow.get_scan key id_col b)
    | none => .ok none

/-- Modelled from the spec (ext module, not under src): the component set
record, `struct{ render: optional int }`, with `Default` giving `render = None`. -/
structure Components where
  render : Option Int
  deriving DecidableEq, Repr

/-- Modelled from the spec: `Components::default()` has no render component. -/
def Components.default : Components := ⟨none⟩

/-- Modelled from the spec (ext module, not under src): the mission summary
record, `struct{ mission_icon_id: optional int, is_mission: bool }`. -/
structure Mission where
  mission_icon_id : Option Int
  is_mission : Bool
  deriving DecidableEq, Repr

/-- Modelled from the spec (ext module, not under src): the mission task
record, `struct{ icon_id: optional int, uid: int }`. -/
structure MissionTask where
  icon_id : Option Int
  uid : Int
  deriving DecidableEq, Repr

/-- The well-known `Icons` columns used by `src/lib.rs` (the enumeration
itself lives in the generated code). -/
inductive IconsColumn where
  | IconPath
  deriving DecidableEq, Repr

/-- The well-known `Missions` columns used by `src/lib.rs`. -/
inductive MissionsColumn where
  | MissionIconId
  | IsMission
  deriving DecidableEq, Repr

/-- The well-known `MissionTasks` columns used by `src/lib.rs`. -/
inductive MissionTasksColumn where
  | IconId
  | Uid
  deriving DecidableEq, Repr

/-- Modelled from the spec (generated code, not under src): the typed `Icons`
table is the raw table plus the resolved optional index of each well-known
column. -/
structure IconsTable where
  raw : Table
  col_icon_path : Option Nat
  deriving DecidableEq, Repr

/-- Modelled from the spec (§4.1, generated code): construction finds the
column's real index by name lookup against the table's own schema; an absent
column resolves to "not present". -/
def IconsTable.new (t : Table) : IconsTable :=
  ⟨t, t.columns.indexOf? "IconPath"⟩

/-- The raw table behind a typed `Icons` table (`TypedTable::as_raw`). -/
def IconsTable.as_raw (t : IconsTable) : Table := t.raw

/-- The generated `get_col` for `Icons` (modelled from the spec). -/
def IconsTable.get_col (t : IconsTable) : IconsColumn → Option Nat
  | .IconPath => t.col_icon_path

/-- Modelled from the spec (generated code, not under src): the typed
`Missions` table with its resolved column indices. -/
structure MissionsTable where
  raw : Table
  col_mission_icon_id : Option Nat
  col_is_mission : Option Nat
  deriving DecidableEq, Repr

/-- Modelled from the spec (§4.1, generated code): name-based column
resolution for the `Missions` table. -/
def MissionsTable.new (t : Table) : MissionsTable :=
  ⟨t, t.columns.indexOf? "missionIconID", t.columns.indexOf? "isMission"⟩

/-- The raw table behind a typed `Missions` table. -/
def MissionsTable.as_raw (t : MissionsTable) : Table := t.raw

/-- The generated `get_col` for `Missions` (modelled from the spec). -/
def MissionsTable.get_col (t : MissionsTable) : MissionsColumn → Option Nat
  | .MissionIconId => t.col_mission_icon_id
  | .IsMission => t.col_is_mission

/-- Modelled from the spec (generated code, not under src): the typed
`MissionTasks` table with its resolved column indices. -/
structure MissionTasksTable where
  raw : Table
  col_icon_id : Option Nat
  col_uid : Option Nat
  deriving DecidableEq, Repr

/-- Modelled from the spec (§4.1, generated code): name-based column
resolution for the `MissionTasks` table. -/
def MissionTasksTable.new (t : Table) : MissionTasksTable :=
  ⟨t, t.columns.indexOf? "IconID", t.columns.indexOf? "uid"⟩

/-- The raw table behind a typed `MissionTasks` table. -/
def MissionTasksTable.as_raw (t : MissionTasksTable) : Table := t.raw

/-- The generated `get_col` for `MissionTasks` (modelled from the spec). -/
def MissionTasksTable.get_col (t : MissionTasksTable) : MissionTasksColumn → Option Nat
  | .IconId => t.col_icon_id
  | .Uid => t.col_uid

/-- Modelled from the spec (generated code): a typed table kind whose column
metadata is never consulted by the queries under study; only the raw table is
kept. This stands for `BehaviorParameterTable`, `ObjectsTable`,
`RenderComponentTable`, `ComponentsRegistryTable` and the other generated
table wrappers whose `get_col` is unused in `src/lib.rs`. -/
structure PlainTable where
  raw : Table
  deriving DecidableEq, Repr

/-- Modelled from the spec: construction of a plain typed table wrapper. -/
def PlainTable.new (t : Table) : PlainTable := ⟨t⟩

/-- The raw table behind a plain typed table wrapper. -/
def PlainTable.as_raw (t : PlainTable) : Table := t.raw

/-- The `TypedDatabase` struct of `src/lib.rs` (lines 121-154): one typed
table per table kind of interest. -/
structure TypedDatabase where
  behavior_parameters : PlainTable
  behavior_templates : PlainTable
  comp_reg : PlainTable
  destructible_component : PlainTable
  icons : IconsTable
  item_sets : PlainTable
  item_set_skills : PlainTable
  loot_table : PlainTable
  missions : MissionsTable
  mission_tasks : MissionTasksTable
  objects : PlainTable
  object_skills : PlainTable
  rebuild_component : PlainTable
  render_comp : PlainTable
  skills : PlainTable
  deriving DecidableEq, Repr

/-- `is_not_empty` from `src/lib.rs` (line 156). -/
def is_not_empty (s : String) : Bool := !s.isEmpty

/-- Modelled from the spec: the opaque-to-this-layer error produced by the
external store when a found table fails to cast. -/
inductive CastError where
  | mk
  deriving DecidableEq, Repr

/-- Modelled from the spec: the collection of raw tables of an opened store,
addressable by name; `by_name` can fail with a `CastError` for a found but
malformed table. -/
structure Tables where
  entries : List (String × Except CastError Table)
  deriving Repr

/-- Modelled from the spec: `lookup_table_by_name(name) -> Table | not-found`
(`Tables::by_name` of `assembly_fdb`): the first entry with the given name,
or `none` when the store has no table of that name. -/
def Tables.by_name (ts : Tables) (name : String) : Option (Except CastError Table) :=
  (ts.entries.find? (fun p => p.fst == name)).map Prod.snd

/-- One `tables.by_name(name).unwrap()?` step of `TypedDatabase::new`
(`src/lib.rs` lines 163-177), in continuation style: a missing table panics
(`unwrap` on `None`, the outer `error`), a found-but-malformed table
early-returns the `CastError` (the `?` operator), and a found table is passed
on. -/
def lookup_step (ts : Tables) (name : String)
    (k : Table → Except String (Except CastError TypedDatabase)) :
    Except String (Except CastError TypedDatabase) :=
  match ts.by_name name with
  | none => .error "called Option::unwrap on a None value"
  | some (.error e) => .ok (.error e)
  | some (.ok t) => k t

/-- `TypedDatabase::new` (`src/lib.rs` lines 162-195): fifteen
`by_name(..).unwrap()?` lookups in source order, then construction of every
typed table. -/
def TypedDatabase.new (ts : Tables) : Except String (Except CastError TypedDatabase) :=
  lookup_step ts "BehaviorParameter" fun behavior_parameter_inner =>
  lookup_step ts "BehaviorTemplate" fun behavior_template_inner =>
  lookup_step ts "ComponentsRegistry" fun components_registry_inner =>
  lookup_step ts "DestructibleComponent" fun destructible_component_inner =>
  lookup_step ts "Icons" fun icons_inner =>
  lookup_step ts "ItemSets" fun item_sets_inner =>
  lookup_step ts "ItemSetSkills" fun item_set_skills_inner =>
  lookup_step ts "LootTable" fun loot_table_inner =>
  lookup_step ts "Missions" fun missions_inner =>
  lookup_step ts "MissionTasks" fun mission_tasks_inner =>
  lookup_step ts "Objects" fun objects_inner =>
  lookup_step ts "ObjectSkills" fun object_skills_inner =>
  lookup_step ts "RebuildComponent" fun rebuild_component_inner =>
  lookup_step ts "RenderComponent" fun render_component_inner =>
  lookup_step ts "SkillBehavior" fun skill_behavior_inner =>
  .ok (.ok
    ⟨PlainTable.new behavior_parameter_inner,
     PlainTable.new behavior_template_inner,
     PlainTable.new components_registry_inner,
     PlainTable.new destructible_component_inner,
     IconsTable.new icons_inner,
     PlainTable.new item_sets_inner,
     PlainTable.new item_set_skills_inner,
     PlainTable.new loot_table_inner,
     MissionsTable.new missions_inner,
     MissionTasksTable.new mission_tasks_inner,
     PlainTable.new objects_inner,
     PlainTable.new object_skills_inner,
     PlainTable.new rebuild_component_inner,
     PlainTable.new render_component_inner,
     PlainTable.new skill_behavior_inner⟩)

/-- The bucket loop of `get_icon_path` (`src/lib.rs` lines 207-213): for each
row, `field_at(0).unwrap()` (panic when the row has no field 0); on the first
row whose field 0 equals `Integer(id)`, return
`field_at(col_icon_path).unwrap().into_opt_text()`. -/
def icon_path_scan (col_icon_path : Nat) (id : Int) : Bucket → Except String (Option String)
  | [] => .ok none
  | row :: rest =>
    match row[0]? with
    | none => .error "called Option::unwrap on a None value"
    | some id_field =>
      if id_field = Value.integer id then
        match row[col_icon_path]? with
        | none => .error "called Option::unwrap on a None value"
        | some v => .ok v.into_opt_text
      else icon_path_scan col_icon_path id rest

/-- `TypedDatabase::get_icon_path` (`src/lib.rs` lines 198-215): hash by u32
bit-reinterpretation, `bucket_for_hash`, then
`get_col(IconPath).expect(..)` — a panic when the column is absent — then the
first-match scan. -/
def TypedDatabase.get_icon_path (db : TypedDatabase) (id : Int) :
    Except String (Option String) :=
  let hash := u32_of_i32 id
  let bucket := db.icons.as_raw.bucket_for_hash hash
  match db.icons.get_col IconsColumn.IconPath with
  | none => .error "Missing column Icons::IconPath"
  | some col_icon_path => icon_path_scan col_icon_path id bucket

/-- The bucket loop of `get_mission_data` (`src/lib.rs` lines 231-250): on
the first row whose field 0 equals `Integer(id)`, read
`field_at(col_mission_icon_id).unwrap().into_opt_integer()` and
`field_at(col_is_mission).unwrap().into_opt_boolean().unwrap_or(true)`. -/
def mission_data_scan (col_mission_icon_id col_is_mission : Nat) (id : Int) :
    Bucket → Except String (Option Mission)
  | [] => .ok none
  | row :: rest =>
    match row[0]? with
    | none => .error "called Option::unwrap on a None value"
    | some id_field =>
      if id_field = Value.integer id then
        match row[col_mission_icon_id]?, row[col_is_mission]? with
        | some v_icon, some v_is =>
          .ok (some ⟨v_icon.into_opt_integer, v_is.into_opt_boolean.getD true⟩)
        | _, _ => .error "called Option::unwrap on a None value"
      else mission_data_scan col_mission_icon_id col_is_mission id rest

/-- `TypedDatabase::get_mission_data` (`src/lib.rs` lines 218-252). -/
def TypedDatabase.get_mission_data (db : TypedDatabase) (id : Int) :
    Except String (Option Mission) :=
  let hash := u32_of_i32 id
  let bucket := db.missions.as_raw.bucket_for_hash hash
  match db.missions.get_col MissionsColumn.MissionIconId with
  | none => .error "Missing column Missions::mission_icon_id"
  | some col_mission_icon_id =>
    match db.missions.get_col MissionsColumn.IsMission with
    | none => .error "Missing column Missions::is_mission"
    | some col_is_mission =>
      mission_data_scan col_mission_icon_id col_is_mission id bucket

/-- The bucket loop of `get_mission_tasks` (`src/lib.rs` lines 269-278): for
every row whose field 0 equals `Integer(id)`, push
`{ icon_id: field_at(col_icon_id).unwrap().into_opt_integer(),
   uid: field_at(col_uid).unwrap().into_opt_integer().unwrap() }`. -/
def mission_tasks_scan (col_icon_id col_uid : Nat) (id : Int) :
    Bucket → Except String (List MissionTask)
  | [] => .ok []
  | row :: rest =>
    match row[0]? with
    | none => .error "called Option::unwrap on a None value"
    | some id_field =>
      if id_field = Value.integer id then
        match row[col_icon_id]?, row[col_uid]? with
        | some v_icon, some v_uid =>
          match v_uid.into_opt_integer with
          | none => .error "called Option::unwrap on a None value"
          | some uid =>
            (mission_tasks_scan col_icon_id col_uid id rest).map
              (fun ts => ⟨v_icon.into_opt_integer, uid⟩ :: ts)
        | _, _ => .error "called Option::unwrap on a None value"
      else mission_tasks_scan col_icon_id col_uid id rest

/-- `TypedDatabase::get_mission_tasks` (`src/lib.rs` lines 255-280). -/
def TypedDatabase.get_mission_tasks (db : TypedDatabase) (id : Int) :
    Except String (List MissionTask) :=
  let hash := u32_of_i32 id
  let bucket := db.mission_tasks.as_raw.bucket_for_hash hash
  match db.mission_tasks.get_col MissionTasksColumn.IconId with
  | none => .error "Missing column MissionTasks::icon_id"
  | some col_icon_id =>
    match db.mission_tasks.get_col MissionTasksColumn.Uid with
    | none => .error "Missing column MissionTasks::uid"
    | some col_uid => mission_tasks_scan col_icon_id col_uid id bucket

/-- The title `match` of `get_object_name_desc` (`src/lib.rs` lines 300-316),
over the already-`filter(is_not_empty)`-ed optional texts. The match arms are
kept in source order: the guarded both-present-and-different arm first, then
the catch-all `(Some(name), _)` arm, and so on. -/
def object_title (id : Int) (name display : Option String) : String :=
  match name, display with
  | some n, some d =>
    if d ≠ n then d ++ " (" ++ n ++ ") | Object #" ++ toString id
    else n ++ " | Object #" ++ toString id
  | some n, none => n ++ " | Object #" ++ toString id
  | none, some d => d ++ " | Object #" ++ toString id
  | none, none => "Object #" ++ toString id

/-- The description `match` of `get_object_name_desc` (`src/lib.rs` lines
317-331), over the `filter(is_not_empty)`-ed optional texts. -/
def object_desc (description internal_notes : Option String) : String :=
  match description, internal_notes with
  | some d, some n => if d ≠ n then d ++ " (" ++ n ++ ")" else d
  | some d, none => d
  | none, some n => n
  | none, none => ""

/-- The bucket loop of `get_object_name_desc` (`src/lib.rs` lines 291-334):
the row's `field_iter` is consumed as `next()` (field 0, the id), `next()`
(field 1, name), `nth(2)` (field 4, description), `nth(2)` (field 7,
displayName), `nth(2)` (field 10, internalNotes), each `unwrap`-ed; on the
first row whose field 0 equals `Integer(id)` the four texts are combined. -/
def object_name_desc_scan (id : Int) : Bucket → Except String (Option (String × String))
  | [] => .ok none
  | row :: rest =>
    match row[0]? with
    | none => .error "called Option::unwrap on a None value"
    | some id_field =>
      if id_field = Value.integer id then
        match row[1]?, row[4]?, row[7]?, row[10]? with
        | some name, some description, some display_name, some internal_notes =>
          .ok (some
            (object_title id (name.into_opt_text.filter is_not_empty)
              (display_name.into_opt_text.filter is_not_empty),
             object_desc (description.into_opt_text.filter is_not_empty)
              (internal_notes.into_opt_text.filter is_not_empty)))
        | _, _, _, _ => .error "called Option::unwrap on a None value"
      else object_name_desc_scan id rest

/-- `TypedDatabase::get_object_name_desc` (`src/lib.rs` lines 283-336): the
bucket is obtained as `bucket_at(hash as usize % bucket_count()).unwrap()` —
a panic when that index has no bucket (and a remainder-by-zero panic when the
bucket count is zero). -/
def TypedDatabase.get_object_name_desc (db : TypedDatabase) (id : Int) :
    Except String (Option (String × String)) :=
  if db.objects.as_raw.bucket_count = 0 then
    .error "attempt to calculate the remainder with a divisor of zero"
  else
    match db.objects.as_raw.bucket_at (domain_bucket_index db.objects.as_raw id) with
    | none => .error "called Option::unwrap on a None value"
    | some bucket => object_name_desc_scan id bucket

/-- The bucket loop of `get_render_image` (`src/lib.rs` lines 346-357): on a
row whose field 0 equals `Integer(id)`, skip field 1 (`_render_asset`) and
inspect field 2 (`icon_asset`); if it is `Text` return it, OTHERWISE THE LOOP
CONTINUES with the next row (there is no early return for a non-text value). -/
def render_image_scan (id : Int) : Bucket → Except String (Option String)
  | [] => .ok none
  | row :: rest =>
    match row[0]? with
    | none => .error "called Option::unwrap on a None value"
    | some id_field =>
      if id_field = Value.integer id then
        match row[1]?, row[2]? with
        | some _, some icon_asset =>
          match icon_asset with
          | .text url => .ok (some url)
          | _ => render_image_scan id rest
        | _, _ => .error "called Option::unwrap on a None value"
      else render_image_scan id rest

/-- `TypedDatabase::get_render_image` (`src/lib.rs` lines 339-359): bucket by
`bucket_at(hash as usize % bucket_count()).unwrap()`, then the scan. -/
def TypedDatabase.get_render_image (db : TypedDatabase) (id : Int) :
    Except String (Option String) :=
  if db.render_comp.as_raw.bucket_count = 0 then
    .error "attempt to calculate the remainder with a divisor of zero"
  else
    match db.render_comp.as_raw.bucket_at (domain_bucket_index db.render_comp.as_raw id) with
    | none => .error "called Option::unwrap on a None value"
    | some bucket => render_image_scan id bucket

/-- The bucket loop of `get_components` (`src/lib.rs` lines 371-382): the
whole bucket is scanned; every row whose field 0 equals `Integer(id)` has
field 1 (`component_type`) and field 2 (`component_id`) read (`unwrap`-ed);
when `component_type` is `Integer(2)` the accumulator's `render` is
overwritten with `component_id.into_opt_integer()`. -/
def components_scan (id : Int) (comp : Components) : Bucket → Except String Components
  | [] => .ok comp
  | row :: rest =>
    match row[0]? with
    | none => .error "called Option::unwrap on a None value"
    | some id_field =>
      if id_field = Value.integer id then
        match row[1]?, row[2]? with
        | some component_type, some component_id =>
          if component_type = Value.integer 2 then
            components_scan id ⟨component_id.into_opt_integer⟩ rest
          else components_scan id comp rest
        | _, _ => .error "called Option::unwrap on a None value"
      else components_scan id comp rest

/-- `TypedDatabase::get_components` (`src/lib.rs` lines 362-384): bucket by
`bucket_at(hash as usize % bucket_count()).unwrap()`, then the
last-match-wins scan starting from `Components::default()`. -/
def TypedDatabase.get_components (db : TypedDatabase) (id : Int) :
    Except String Components :=
  if db.comp_reg.as_raw.bucket_count = 0 then
    .error "attempt to calculate the remainder with a divisor of zero"
  else
    match db.comp_reg.as_raw.bucket_at (domain_bucket_index db.comp_reg.as_raw id) with
    | none => .error "called Option::unwrap on a None value"
    | some bucket => components_scan id Components.default bucket

/-- A row whose primary-key field (field 0) equals the integer `id`; the
match predicate shared by the bucket-scan characterizations. -/
def row_matches (id : Int) (r : Row) : Bool :=
  r[0]? == some (Value.integer id)

/-- Follows the spec's words: a text input is "treated as absent if
empty-string or unset". -/
def spec_text_present (o : Option String) : Option String :=
  match o with
  | some s => if s = "" then none else some s
  | none => none

/-- Follows the spec's words (title formatting rules of §4.5): both present
and different, only `name` present or both equal, only `display_name`
present, neither present. -/
def spec_title (id : Int) (name display_name : Option String) : String :=
  match name, display_name with
  | some n, some d =>
    if d = n then n ++ " | Object #" ++ toString id
    else d ++ " (" ++ n ++ ") | Object #" ++ toString id
  | some n, none => n ++ " | Object #" ++ toString id
  | none, some d => d ++ " | Object #" ++ toString id
  | none, none => "Object #" ++ toString id

/-- Follows the spec's words (description formatting rules of §4.5). -/
def spec_desc (description internal_notes : Option String) : String :=
  match description, internal_notes with
  | some d, some n => if d = n then d else d ++ " (" ++ n ++ ")"
  | some d, none => d
  | none, some n => n
  | none, none => ""

/-- A row that `get_components` considers: primary key equal to `id` and
component-type field equal to the integer 2. -/
def component_render_matches (id : Int) (r : Row) : Bool :=
  row_matches id r && (r[1]? == some (Value.integer 2))

/-- A row that yields a result in the `get_render_image` scan: primary key
equal to `id` and an icon-asset field that decodes as text. -/
def render_matches (id : Int) (r : Row) : Bool :=
  row_matches id r && ((r[2]?.getD Value.nothing).into_opt_text).isSome

/-- Follows the claim's words for `get_components`: the rows of the bucket
whose primary key equals `id` and whose component-type field equals the
integer 2, in bucket scan order. -/
def spec_render_rows (id : Int) (b : Bucket) : List Row :=
  b.filter (component_render_matches id)

/-- Follows the claim's words: the render component is read from the last
component-type-2 matching row in bucket scan order, if any. -/
def spec_last_render (id : Int) (b : Bucket) : Option Int :=
  match (spec_render_rows id b).getLast? with
  | some r => (r[2]?.getD Value.nothing).into_opt_integer
  | none => none

/-- Follows the claim's words for `get_mission_tasks`: the entry built from
one matching row (under the theorems' hypotheses the `uid` field is an
integer, so the `getD 0` never applies). -/
def spec_task_of_row (col_icon_id col_uid : Nat) (r : Row) : MissionTask :=
  ⟨(r[col_icon_id]?.getD Value.nothing).into_opt_integer,
   ((r[col_uid]?.getD Value.nothing).into_opt_integer).getD 0⟩

theorem icon_path_scan_eq (cp : Nat) (id : Int) (b : Bucket)
    (h0 : ∀ r ∈ b, 0 < r.length)
    (hcp : ∀ r ∈ b, row_matches id r = true → cp < r.length) :
    icon_path_scan cp id b =
      .ok ((b.find? (row_matches id)).bind
        fun r => (r[cp]?.getD Value.nothing).into_opt_text) := by
  induction b with
  | nil => rfl
  | cons r rest ih =>
    have hr0 : 0 < r.length := h0 r (List.mem_cons_self r rest)
    have he0 : r[0]? = some r[0] := List.getElem?_eq_getElem hr0
    by_cases hm : r[0] = Value.integer id
    · have hmatch : row_matches id r = true := by
        simp [row_matches, he0, hm]
      have hlt : cp < r.length := hcp r (List.mem_cons_self r rest) hmatch
      have hecp : r[cp]? = some r[cp] := List.getElem?_eq_getElem hlt
      simp [icon_path_scan, he0, hm, List.find?_cons_of_pos _ hmatch, hecp]
    · have hmatch : ¬ row_matches id r = true := by
        simp [row_matches, he0, hm]
      simp only [icon_path_scan, he0, List.find?_cons_of_neg _ hmatch]
      rw [if_neg hm]
      exact ih (fun x hx => h0 x (List.mem_cons_of_mem _ hx))
        (fun x hx => hcp x (List.mem_cons_of_mem _ hx))

theorem mission_data_scan_eq (c1 c2 : Nat) (id : Int) (b : Bucket)
    (h0 : ∀ r ∈ b, 0 < r.length)
    (hc : ∀ r ∈ b, row_matches id r = true → c1 < r.length ∧ c2 < r.length) :
    mission_data_scan c1 c2 id b =
      .ok ((b.find? (row_matches id)).map fun r =>
        ⟨(r[c1]?.getD Value.nothing).into_opt_integer,
         ((r[c2]?.getD Value.nothing).into_opt_boolean).getD true⟩) := by
  induction b with
  | nil => rfl
  | cons r rest ih =>
    have hr0 : 0 < r.length := h0 r (List.mem_cons_self r rest)
    have he0 : r[0]? = some r[0] := List.getElem?_eq_getElem hr0
    by_cases hm : r[0] = Value.integer id
    · have hmatch : row_matches id r = true := by simp [row_matches, he0, hm]
      obtain ⟨h1, h2⟩ := hc r (List.mem_cons_self r rest) hmatch
      have he1 : r[c1]? = some r[c1] := List.getElem?_eq_getElem h1
      have he2 : r[c2]? = some r[c2] := List.getElem?_eq_getElem h2
      simp [mission_data_scan, he0, hm, List.find?_cons_of_pos _ hmatch, he1, he2]
    · have hmatch : ¬ row_matches id r = true := by simp [row_matches, he0, hm]
      simp only [mission_data_scan, he0, List.find?_cons_of_neg _ hmatch]
      rw [if_neg hm]
      exact ih (fun x hx => h0 x (List.mem_cons_of_mem _ hx))
        (fun x hx => hc x (List.mem_cons_of_mem _ hx))

theorem mission_tasks_scan_eq (ci cu : Nat) (id : Int) (b : Bucket)
    (h0 : ∀ r ∈ b, 0 < r.length)
    (hc : ∀ r ∈ b, row_matches id r = true →
      ci < r.length ∧ cu < r.length ∧
        ((r[cu]?.getD Value.nothing).into_opt_integer).isSome = true) :
    mission_tasks_scan ci cu id b =
      .ok ((b.filter (row_matches id)).map (spec_task_of_row ci cu)) := by
  induction b with
  | nil => rfl
  | cons r rest ih =>
    have hr0 : 0 < r.length := h0 r (List.mem_cons_self r rest)
    have he0 : r[0]? = some r[0] := List.getElem?_eq_getElem hr0
    have ihr := ih (fun x hx => h0 x (List.mem_cons_of_mem _ hx))
      (fun x hx => hc x (List.mem_cons_of_mem _ hx))
    by_cases hm : r[0] = Value.integer id
    · have hmatch : row_matches id r = true := by simp [row_matches, he0, hm]
      obtain ⟨h1, h2, h3⟩ := hc r (List.mem_cons_self r rest) hmatch
      have he1 : r[ci]? = some r[ci] := List.getElem?_eq_getElem h1
      have he2 : r[cu]? = some r[cu] := List.getElem?_eq_getElem h2
      rw [he2] at h3
      obtain ⟨u, hu⟩ := Option.isSome_iff_exists.mp h3
      simp only [Option.getD_some] at hu
      simp [mission_tasks_scan, he0, hm, List.filter_cons_of_pos hmatch,
        he1, he2, hu, ihr, spec_task_of_row, Except.map]
    · have hmatch : ¬ row_matches id r = true := by simp [row_matches, he0, hm]
      simp only [mission_tasks_scan, he0, List.filter_cons_of_neg hmatch]
      rw [if_neg hm]
      exact ihr

theorem render_image_scan_eq (id : Int) (b : Bucket)
    (h0 : ∀ r ∈ b, 0 < r.length)
    (hc : ∀ r ∈ b, row_matches id r = true → 3 ≤ r.length) :
    render_image_scan id b =
      .ok ((b.find? (render_matches id)).bind
        fun r => (r[2]?.getD Value.nothing).into_opt_text) := by
  induction b with
  | nil => rfl
  | cons r rest ih =>
    have hr0 : 0 < r.length := h0 r (List.mem_cons_self r rest)
    have he0 : r[0]? = some r[0] := List.getElem?_eq_getElem hr0
    have ihr := ih (fun x hx => h0 x (List.mem_cons_of_mem _ hx))
      (fun x hx => hc x (List.mem_cons_of_mem _ hx))
    by_cases hm : r[0] = Value.integer id
    · have hmatch : row_matches id r = true := by simp [row_matches, he0, hm]
      have h3 : 3 ≤ r.length := hc r (List.mem_cons_self r rest) hmatch
      have he1 : r[1]? = some r[1] := List.getElem?_eq_getElem (by omega)
      have he2 : r[2]? = some r[2] := List.getElem?_eq_getElem (by omega)
      cases ht : r[2] with
      | text url =>
        have hpos : render_matches id r = true := by
          simp [render_matches, hmatch, he2, ht, Value.into_opt_text]
        rw [List.find?_cons_of_pos _ hpos]
        simp [render_image_scan, he0, hm, he1, he2, ht, Value.into_opt_text]
      | nothing =>
        have hneg : ¬ render_matches id r = true := by
          simp [render_matches, he2, ht, Value.into_opt_text]
        rw [List.find?_cons_of_neg _ hneg]
        simp only [render_image_scan, he0]
        rw [if_pos hm]
        simp only [he1, he2, ht]
        exact ihr
      | integer v =>
        have hneg : ¬ render_matches id r = true := by
          simp [render_matches, he2, ht, Value.into_opt_text]
        rw [List.find?_cons_of_neg _ hneg]
        simp only [render_image_scan, he0]
        rw [if_pos hm]
        simp only [he1, he2, ht]
        exact ihr
      | float v =>
        have hneg : ¬ render_matches id r = true := by
          simp [render_matches, he2, ht, Value.into_opt_text]
        rw [List.find?_cons_of_neg _ hneg]
        simp only [render_image_scan, he0]
        rw [if_pos hm]
        simp only [he1, he2, ht]
        exact ihr
      | boolean v =>
        have hneg : ¬ render_matches id r = true := by
          simp [render_matches, he2, ht, Value.into_opt_text]
        rw [List.find?_cons_of_neg _ hneg]
        simp only [render_image_scan, he0]
        rw [if_pos hm]
        simp only [he1, he2, ht]
        exact ihr
    · have hneg : ¬ render_matches id r = true := by
        simp [render_matches, row_matches, he0, hm]
      rw [List.find?_cons_of_neg _ hneg]
      simp only [render_image_scan, he0]
      rw [if_neg hm]
      exact ihr

theorem object_name_desc_scan_eq (id : Int) (b : Bucket)
    (h0 : ∀ r ∈ b, 0 < r.length)
    (hc : ∀ r ∈ b, row_matches id r = true → 11 ≤ r.length) :
    object_name_desc_scan id b =
      .ok ((b.find? (row_matches id)).map fun r =>
        (object_title id
          ((r[1]?.getD Value.nothing).into_opt_text.filter is_not_empty)
          ((r[7]?.getD Value.nothing).into_opt_text.filter is_not_empty),
         object_desc
          ((r[4]?.getD Value.nothing).into_opt_text.filter is_not_empty)
          ((r[10]?.getD Value.nothing).into_opt_text.filter is_not_empty))) := by
  induction b with
  | nil => rfl
  | cons r rest ih =>
    have hr0 : 0 < r.length := h0 r (List.mem_cons_self r rest)
    have he0 : r[0]? = some r[0] := List.getElem?_eq_getElem hr0
    by_cases hm : r[0] = Value.integer id
    · have hmatch : row_matches id r = true := by simp [row_matches, he0, hm]
      have h11 : 11 ≤ r.length := hc r (List.mem_cons_self r rest) hmatch
      have he1 : r[1]? = some r[1] := List.getElem?_eq_getElem (by omega)
      have he4 : r[4]? = some r[4] := List.getElem?_eq_getElem (by omega)
      have he7 : r[7]? = some r[7] := List.getElem?_eq_getElem (by omega)
      have he10 : r[10]? = some r[10] := List.getElem?_eq_getElem (by omega)
      simp [object_name_desc_scan, he0, hm, List.find?_cons_of_pos _ hmatch,
        he1, he4, he7, he10]
    · have hmatch : ¬ row_matches id r = true := by simp [row_matches, he0, hm]
      simp only [object_name_desc_scan, he0, List.find?_cons_of_neg _ hmatch]
      rw [if_neg hm]
      exact ih (fun x hx => h0 x (List.mem_cons_of_mem _ hx))
        (fun x hx => hc x (List.mem_cons_of_mem _ hx))

theorem components_scan_eq (id : Int) (b : Bucket) :
    ∀ comp : Components,
    (∀ r ∈ b, 0 < r.length) →
    (∀ r ∈ b, row_matches id r = true → 3 ≤ r.length) →
    components_scan id comp b =
      .ok ⟨((spec_render_rows id b).getLast?.map
        fun r => (r[2]?.getD Value.nothing).into_opt_integer).getD comp.render⟩ := by
  induction b with
  | nil =>
    intro comp h0 h3
    simp [components_scan, spec_render_rows]
  | cons r rest ih =>
    intro comp h0 h3
    have hr0 : 0 < r.length := h0 r (List.mem_cons_self r rest)
    have he0 : r[0]? = some r[0] := List.getElem?_eq_getElem hr0
    by_cases hm : r[0] = Value.integer id
    · have hmatch : row_matches id r = true := by simp [row_matches, he0, hm]
      have hlen : 3 ≤ r.length := h3 r (List.mem_cons_self r rest) hmatch
      have he1 : r[1]? = some r[1] := List.getElem?_eq_getElem (by omega)
      have he2 : r[2]? = some r[2] := List.getElem?_eq_getElem (by omega)
      by_cases h2 : r[1] = Value.integer 2
      · have hcrm : component_render_matches id r = true := by
          simp [component_render_matches, row_matches, he0, hm, he1, h2]
        have hstep : components_scan id comp (r :: rest) =
            components_scan id ⟨(r[2]).into_opt_integer⟩ rest := by
          simp only [components_scan, he0]
          rw [if_pos hm]
          simp only [he1, he2]
          rw [if_pos h2]
        have hsrr : spec_render_rows id (r :: rest) = r :: spec_render_rows id rest := by
          simp [spec_render_rows, List.filter_cons_of_pos hcrm]
        rw [hstep, ih ⟨(r[2]).into_opt_integer⟩
              (fun x hx => h0 x (List.mem_cons_of_mem _ hx))
              (fun x hx => h3 x (List.mem_cons_of_mem _ hx)),
            hsrr]
        cases hlast : spec_render_rows id rest with
        | nil => simp [he2]
        | cons y ys =>
          rw [List.getLast?_cons_cons]
          obtain ⟨z, hz⟩ : ∃ z, (y :: ys).getLast? = some z := by
            cases hzz : (y :: ys).getLast? with
            | some z => exact ⟨z, rfl⟩
            | none => simp [List.getLast?_eq_none_iff] at hzz
          rw [hz]
          simp
      · have hcrm : ¬ component_render_matches id r = true := by
          simp [component_render_matches, he1, h2]
        have hstep : components_scan id comp (r :: rest) =
            components_scan id comp rest := by
          simp only [components_scan, he0]
          rw [if_pos hm]
          simp only [he1, he2]
          rw [if_neg h2]
        have hsrr : spec_render_rows id (r :: rest) = spec_render_rows id rest := by
          simp [spec_render_rows, List.filter_cons_of_neg hcrm]
        rw [hstep, hsrr]
        exact ih comp (fun x hx => h0 x (List.mem_cons_of_mem _ hx))
          (fun x hx => h3 x (List.mem_cons_of_mem _ hx))
    · have hcrm : ¬ component_render_matches id r = true := by
        simp [component_render_matches, row_matches, he0, hm]
      have hstep : components_scan id comp (r :: rest) =
          components_scan id comp rest := by
        simp only [components_scan, he0]
        rw [if_neg hm]
      have hsrr : spec_render_rows id (r :: rest) = spec_render_rows id rest := by
        simp [spec_render_rows, List.filter_cons_of_neg hcrm]
      rw [hstep, hsrr]
      exact ih comp (fun x hx => h0 x (List.mem_cons_of_mem _ hx))
        (fun x hx => h3 x (List.mem_cons_of_mem _ hx))

theorem u32_of_i32_eq_spec (k : Int) (hlo : -(2 ^ 31) ≤ k) (hhi : k < 2 ^ 31) :
    u32_of_i32 k = spec_u32_reinterpret k := by
  by_cases hneg : k < 0
  · simp only [u32_of_i32, spec_u32_reinterpret, if_pos hneg]
    omega
  · simp only [u32_of_i32, spec_u32_reinterpret, if_neg hneg]
    omega

theorem usize_of_i32_eq_spec_of_nonneg (k : Int) (h0 : 0 ≤ k) (hhi : k < 2 ^ 31) :
    usize_of_i32 k = spec_u32_reinterpret k := by
  simp only [usize_of_i32, spec_u32_reinterpret, if_neg (by omega : ¬ k < 0)]
  omega

theorem filter_is_not_empty_eq (o : Option String) :
    o.filter is_not_empty = spec_text_present o := by
  cases o with
  | none => rfl
  | some s =>
    by_cases h : s = ""
    · simp [Option.filter, spec_text_present, is_not_empty, h,
        (String.isEmpty_iff "").mpr rfl]
    · simp [Option.filter, spec_text_present, is_not_empty, h,
        mt (String.isEmpty_iff s).mp h]

theorem object_title_eq_spec (id : Int) (name display : Option String) :
    object_title id name display = spec_title id name display := by
  cases name with
  | none => cases display <;> rfl
  | some n =>
    cases display with
    | none => rfl
    | some d =>
      by_cases h : d = n
      · simp [object_title, spec_title, h]
      · simp [object_title, spec_title, h]

theorem object_desc_eq_spec (description notes : Option String) :
    object_desc description notes = spec_desc description notes := by
  cases description with
  | none => cases notes <;> rfl
  | some d =>
    cases notes with
    | none => rfl
    | some n =>
      by_cases h : d = n
      · simp [object_desc, spec_desc, h]
      · simp [object_desc, spec_desc, h]

/-- A seven-bucket table whose only row, with primary key -1, is stored in
bucket 3 = (2^32 - 1) mod 7, the bucket that the unsigned-32-bit
reinterpretation rule selects for the key -1. -/
def t7 : Table := ⟨7, [[], [], [], [[Value.integer (-1)]], [], [], []], []⟩

/-- C1, counterexample. The claim says every lookup entry point, including
`TypedRow::get`, scans the bucket at index (u32-reinterpretation of k) mod n.
On the 64-bit target, `index_key as usize` sign-extends, so for k = -1 and
n = 7 `TypedRow::get` scans bucket (2^64 - 1) mod 7 = 1, not bucket
(2^32 - 1) mod 7 = 3: the row with key -1 stored in bucket 3 (where the u32
rule and the scan predicate would find it) is missed and the lookup returns
`none`. -/
theorem typedRowGet_negative_key_wrong_bucket :
    TypedRow.get_bucket_index t7 (-1) = 1 ∧
    spec_bucket_index t7.bucket_count (-1) = 3 ∧
    t7.bucket_at 3 = some [[Value.integer (-1)]] ∧
    TypedRow.get_scan (-1) 0 [[Value.integer (-1)]] = some [Value.integer (-1)] ∧
    TypedRow.get t7 (-1) (-1) 0 = .ok none := by
  refine ⟨by decide, by decide, rfl, rfl, rfl⟩

/-- C1 (amended): for every signed 32-bit key, the derived domain queries
(both the inline `hash as usize % bucket_count` form and the
`bucket_for_hash` form) choose the bucket at index (u32-reinterpretation of
k) mod n, and hence agree for keys whose reinterpretations agree mod n;
`TypedRow::get`, however, computes its index from the 64-bit sign extension
of the key, which coincides with the u32 rule only for non-negative keys. -/
theorem bucket_selection_u32_rule (t : Table) (k k' : Int)
    (hlo : -(2 ^ 31) ≤ k) (hhi : k < 2 ^ 31)
    (hlo' : -(2 ^ 31) ≤ k') (hhi' : k' < 2 ^ 31) :
    (domain_bucket_index t k = spec_bucket_index t.bucket_count k) ∧
    (t.bucket_for_hash (u32_of_i32 k) =
      (t.bucket_at (spec_bucket_index t.bucket_count k)).getD []) ∧
    (spec_u32_reinterpret k % t.bucket_count = spec_u32_reinterpret k' % t.bucket_count →
      domain_bucket_index t k = domain_bucket_index t k') ∧
    (0 ≤ k → TypedRow.get_bucket_index t k = spec_bucket_index t.bucket_count k) := by
  have hk := u32_of_i32_eq_spec k hlo hhi
  have hk' := u32_of_i32_eq_spec k' hlo' hhi'
  refine ⟨?_, ?_, ?_, ?_⟩
  · simp [domain_bucket_index, spec_bucket_index, hk]
  · simp [Table.bucket_for_hash, spec_bucket_index, hk]
  · intro h
    simp [domain_bucket_index, spec_bucket_index, hk, hk', h]
  · intro h0
    simp [TypedRow.get_bucket_index, spec_bucket_index,
      usize_of_i32_eq_spec_of_nonneg k h0 hhi]

/-- C1, witness for the amended theorem at the table `t7` and the keys 5 and
12, whose u32 reinterpretations agree mod 7. -/
theorem bucket_selection_u32_rule_witness :
    (domain_bucket_index t7 5 = spec_bucket_index t7.bucket_count 5) ∧
    (t7.bucket_for_hash (u32_of_i32 5) =
      (t7.bucket_at (spec_bucket_index t7.bucket_count 5)).getD []) ∧
    (spec_u32_reinterpret 5 % t7.bucket_count = spec_u32_reinterpret 12 % t7.bucket_count →
      domain_bucket_index t7 5 = domain_bucket_index t7 12) ∧
    (0 ≤ (5 : Int) → TypedRow.get_bucket_index t7 5 = spec_bucket_index t7.bucket_count 5) :=
  bucket_selection_u32_rule t7 5 12 (by decide) (by decide) (by decide) (by decide)

/-- An empty but well-formed raw table (one empty bucket, no schema
columns), used as a stand-in store table in concrete instances. -/
def empty_table : Table := ⟨1, [[]], []⟩

/-- A store that has every required table except "Missions", each present
table casting successfully. -/
def store_missing_missions : Tables :=
  ⟨[("BehaviorParameter", .ok empty_table), ("BehaviorTemplate", .ok empty_table),
    ("ComponentsRegistry", .ok empty_table), ("DestructibleComponent", .ok empty_table),
    ("Icons", .ok empty_table), ("ItemSets", .ok empty_table),
    ("ItemSetSkills", .ok empty_table), ("LootTable", .ok empty_table),
    ("MissionTasks", .ok empty_table), ("Objects", .ok empty_table),
    ("ObjectSkills", .ok empty_table), ("RebuildComponent", .ok empty_table),
    ("RenderComponent", .ok empty_table), ("SkillBehavior", .ok empty_table)]⟩

/-- C2, counterexample. The claim says that on a store missing the required
table "Missions", `TypedDatabase::new` returns a schema error to the caller
and does not abort the process. In fact `tables.by_name("Missions").unwrap()`
panics on `None`: the constructor aborts instead of returning an error value,
so the result is a panic, not `Ok`/`Err`. -/
theorem typedDatabaseNew_missing_table_panics :
    TypedDatabase.new store_missing_missions =
      .error "called Option::unwrap on a None value" ∧
    TypedDatabase.new store_missing_missions ≠ .ok (.error CastError.mk) := by
  have h : TypedDatabase.new store_missing_missions =
      .error "called Option::unwrap on a None value" := by rfl
  exact ⟨h, by rw [h]; simp⟩

/-- C2 (amended): when the store is missing the required table "Missions"
while the eight tables looked up before it are present and cast successfully,
`TypedDatabase::new` panics (aborts) on the `unwrap` of the failed name
lookup instead of returning a schema error; consequently no partially
constructed database value is produced. -/
theorem typedDatabaseNew_missing_table_behavior (ts : Tables)
    (h1 : ∃ t, ts.by_name "BehaviorParameter" = some (.ok t))
    (h2 : ∃ t, ts.by_name "BehaviorTemplate" = some (.ok t))
    (h3 : ∃ t, ts.by_name "ComponentsRegistry" = some (.ok t))
    (h4 : ∃ t, ts.by_name "DestructibleComponent" = some (.ok t))
    (h5 : ∃ t, ts.by_name "Icons" = some (.ok t))
    (h6 : ∃ t, ts.by_name "ItemSets" = some (.ok t))
    (h7 : ∃ t, ts.by_name "ItemSetSkills" = some (.ok t))
    (h8 : ∃ t, ts.by_name "LootTable" = some (.ok t))
    (hm : ts.by_name "Missions" = none) :
    TypedDatabase.new ts = .error "called Option::unwrap on a None value" := by
  obtain ⟨t1, h1⟩ := h1
  obtain ⟨t2, h2⟩ := h2
  obtain ⟨t3, h3⟩ := h3
  obtain ⟨t4, h4⟩ := h4
  obtain ⟨t5, h5⟩ := h5
  obtain ⟨t6, h6⟩ := h6
  obtain ⟨t7x, h7⟩ := h7
  obtain ⟨t8, h8⟩ := h8
  simp [TypedDatabase.new, lookup_step, h1, h2, h3, h4, h5, h6, h7, h8, hm]

/-- C2, witness for the amended theorem at the concrete store missing
"Missions". -/
theorem typedDatabaseNew_missing_table_behavior_witness :
    TypedDatabase.new store_missing_missions =
      .error "called Option::unwrap on a None value" :=
  typedDatabaseNew_missing_table_behavior store_missing_missions
    ⟨empty_table, rfl⟩ ⟨empty_table, rfl⟩ ⟨empty_table, rfl⟩ ⟨empty_table, rfl⟩
    ⟨empty_table, rfl⟩ ⟨empty_table, rfl⟩ ⟨empty_table, rfl⟩ ⟨empty_table, rfl⟩ rfl

/-- A sample plain typed table over the empty raw table. -/
def sample_plain : PlainTable := PlainTable.new empty_table

/-- A sample `Icons` raw table: one bucket, one row for id 1, schema
["IconID", "IconPath"]. -/
def sample_icons : Table :=
  ⟨1, [[[Value.integer 1, Value.text "ui/icon.png"]]], ["IconID", "IconPath"]⟩

/-- A sample `Missions` raw table: one row for id 1 whose `isMission` field
is null. -/
def sample_missions : Table :=
  ⟨1, [[[Value.integer 1, Value.integer 42, Value.nothing]]],
   ["id", "missionIconID", "isMission"]⟩

/-- A sample `MissionTasks` raw table: two rows for id 1 (a duplicate id), in
stored order. -/
def sample_tasks : Table :=
  ⟨1, [[[Value.integer 1, Value.integer 7, Value.integer 100],
        [Value.integer 1, Value.nothing, Value.integer 101]]],
   ["id", "IconID", "uid"]⟩

/-- A sample `Objects` raw table: one row for id 1 with the eleven leading
fields the fixed-position reads expect (name "Widget", description "A box.",
displayName "Big Widget", internalNotes "debug only"). -/
def sample_objects : Table :=
  ⟨1, [[[Value.integer 1, Value.text "Widget", Value.nothing, Value.nothing,
         Value.text "A box.", Value.nothing, Value.nothing,
         Value.text "Big Widget", Value.nothing, Value.nothing,
         Value.text "debug only"]]], []⟩

/-- A sample `RenderComponent` raw table: two rows for id 1; the first
matching row's icon-asset field is the integer 5 (not text), the second
matching row's is the text "img.png". -/
def sample_render : Table :=
  ⟨1, [[[Value.integer 1, Value.nothing, Value.integer 5],
        [Value.integer 1, Value.nothing, Value.text "img.png"]]], []⟩

/-- A sample `ComponentsRegistry` raw table: for id 1 two component-type-2
rows (component ids 900 then 901), one type-7 row between them, and a row of
a different id after them. -/
def sample_comp_reg : Table :=
  ⟨1, [[[Value.integer 1, Value.integer 2, Value.integer 900],
        [Value.integer 1, Value.integer 7, Value.integer 950],
        [Value.integer 1, Value.integer 2, Value.integer 901],
        [Value.integer 2, Value.integer 2, Value.integer 999]]], []⟩

/-- A sample typed database over the tables above. -/
def sample_db : TypedDatabase :=
  ⟨sample_plain, sample_plain, PlainTable.new sample_comp_reg, sample_plain,
   IconsTable.new sample_icons, sample_plain, sample_plain, sample_plain,
   MissionsTable.new sample_missions, MissionTasksTable.new sample_tasks,
   PlainTable.new sample_objects, sample_plain, sample_plain,
   PlainTable.new sample_render, sample_plain⟩

/-- C3: when the first matching row of the id's bucket in the Objects table
exists (and the bucket is well-formed), `get_object_name_desc` returns
exactly the title and description computed by the spec's formatting rules
from the row's fields 1 (name), 4 (description), 7 (displayName) and
10 (internalNotes), each treated as absent when unset, non-text, or the
empty string. -/
theorem get_object_name_desc_formats (db : TypedDatabase) (id : Int)
    (b : Bucket) (r : Row)
    (hn : db.objects.as_raw.bucket_count ≠ 0)
    (hb : db.objects.as_raw.bucket_at (domain_bucket_index db.objects.as_raw id) = some b)
    (h0 : ∀ x ∈ b, 0 < x.length)
    (hall : ∀ x ∈ b, row_matches id x = true → 11 ≤ x.length)
    (hf : b.find? (row_matches id) = some r) :
    db.get_object_name_desc id =
      .ok (some
        (spec_title id
          (spec_text_present (r[1]?.getD Value.nothing).into_opt_text)
          (spec_text_present (r[7]?.getD Value.nothing).into_opt_text),
         spec_desc
          (spec_text_present (r[4]?.getD Value.nothing).into_opt_text)
          (spec_text_present (r[10]?.getD Value.nothing).into_opt_text))) := by
  simp only [TypedDatabase.get_object_name_desc, hb, if_neg hn]
  rw [object_name_desc_scan_eq id b h0 hall, hf]
  simp [object_title_eq_spec, object_desc_eq_spec, filter_is_not_empty_eq]

/-- C3, witness at the sample database: name and display name differ, so the
title combines them; description and internal notes differ, so the
description combines them. -/
theorem get_object_name_desc_formats_witness :
    sample_db.get_object_name_desc 1 =
      .ok (some ("Big Widget (Widget) | Object #1", "A box. (debug only)")) := by
  have h := get_object_name_desc_formats sample_db 1
    [[Value.integer 1, Value.text "Widget", Value.nothing, Value.nothing,
      Value.text "A box.", Value.nothing, Value.nothing,
      Value.text "Big Widget", Value.nothing, Value.nothing,
      Value.text "debug only"]]
    [Value.integer 1, Value.text "Widget", Value.nothing, Value.nothing,
     Value.text "A box.", Value.nothing, Value.nothing,
     Value.text "Big Widget", Value.nothing, Value.nothing,
     Value.text "debug only"]
    (by decide) rfl (by decide) (by decide) (by decide)
  exact h.trans (by rfl)

/-- C4: `get_components` scans the whole bucket, considers only rows whose
component-type field equals the integer 2, lets each such matching row
overwrite the previous result, and therefore returns the render value of the
LAST component-type-2 matching row in bucket scan order (or no render value
when there is none). -/
theorem get_components_last_match (db : TypedDatabase) (id : Int) (b : Bucket)
    (hn : db.comp_reg.as_raw.bucket_count ≠ 0)
    (hb : db.comp_reg.as_raw.bucket_at (domain_bucket_index db.comp_reg.as_raw id) = some b)
    (h0 : ∀ x ∈ b, 0 < x.length)
    (h3 : ∀ x ∈ b, row_matches id x = true → 3 ≤ x.length) :
    db.get_components id = .ok ⟨spec_last_render id b⟩ := by
  simp only [TypedDatabase.get_components, hb, if_neg hn]
  rw [components_scan_eq id b Components.default h0 h3]
  cases hlast : (spec_render_rows id b).getLast? <;>
    simp [spec_last_render, hlast, Components.default]

/-- C4, witness at the sample database: for id 1 the bucket holds
component-type-2 rows with component ids 900 and then 901, so the render
value comes from the last one, 901, not the first. -/
theorem get_components_last_match_witness :
    sample_db.get_components 1 = .ok ⟨some 901⟩ := by
  have h := get_components_last_match sample_db 1
    [[Value.integer 1, Value.integer 2, Value.integer 900],
     [Value.integer 1, Value.integer 7, Value.integer 950],
     [Value.integer 1, Value.integer 2, Value.integer 901],
     [Value.integer 2, Value.integer 2, Value.integer 999]]
    (by decide) rfl (by decide) (by decide)
  exact h.trans (by rfl)

/-- C5: `get_mission_tasks` returns exactly one entry per row of the id's
bucket whose primary-key field equals id, in stored bucket order, including
duplicates; no matching row is skipped and no uniqueness is assumed. -/
theorem get_mission_tasks_all_matches (db : TypedDatabase) (id : Int)
    (ci cu : Nat) (b : Bucket)
    (hci : db.mission_tasks.get_col MissionTasksColumn.IconId = some ci)
    (hcu : db.mission_tasks.get_col MissionTasksColumn.Uid = some cu)
    (hb : db.mission_tasks.as_raw.bucket_for_hash (u32_of_i32 id) = b)
    (h0 : ∀ x ∈ b, 0 < x.length)
    (hc : ∀ x ∈ b, row_matches id x = true →
      ci < x.length ∧ cu < x.length ∧
        ((x[cu]?.getD Value.nothing).into_opt_integer).isSome = true) :
    db.get_mission_tasks id =
      .ok ((b.filter (row_matches id)).map (spec_task_of_row ci cu)) := by
  simp only [TypedDatabase.get_mission_tasks, hci, hcu, hb]
  exact mission_tasks_scan_eq ci cu id b h0 hc

/-- C5, witness at the sample database: two rows share id 1 and both appear
in the result, in stored order. -/
theorem get_mission_tasks_all_matches_witness :
    sample_db.get_mission_tasks 1 = .ok [⟨some 7, 100⟩, ⟨none, 101⟩] := by
  have h := get_mission_tasks_all_matches sample_db 1 1 2
    [[Value.integer 1, Value.integer 7, Value.integer 100],
     [Value.integer 1, Value.nothing, Value.integer 101]]
    rfl rfl rfl (by decide) (by decide)
  exact h.trans (by rfl)

/-- C6: `get_mission_data` returns the data of the FIRST matching row of the
id's bucket (`none` when no row matches), and when the stored `isMission`
value of that row is absent (null) the returned mission has
`is_mission = true`. -/
theorem get_mission_data_first_match_default_true (db : TypedDatabase)
    (id : Int) (c1 c2 : Nat) (b : Bucket)
    (hc1 : db.missions.get_col MissionsColumn.MissionIconId = some c1)
    (hc2 : db.missions.get_col MissionsColumn.IsMission = some c2)
    (hb : db.missions.as_raw.bucket_for_hash (u32_of_i32 id) = b)
    (h0 : ∀ x ∈ b, 0 < x.length)
    (hc : ∀ x ∈ b, row_matches id x = true → c1 < x.length ∧ c2 < x.length) :
    (db.get_mission_data id =
      .ok ((b.find? (row_matches id)).map fun r =>
        ⟨(r[c1]?.getD Value.nothing).into_opt_integer,
         ((r[c2]?.getD Value.nothing).into_opt_boolean).getD true⟩)) ∧
    (∀ r, b.find? (row_matches id) = some r →
      (r[c2]?.getD Value.nothing) = Value.nothing →
      db.get_mission_data id =
        .ok (some ⟨(r[c1]?.getD Value.nothing).into_opt_integer, true⟩)) := by
  have hmain : db.get_mission_data id =
      .ok ((b.find? (row_matches id)).map fun r =>
        ⟨(r[c1]?.getD Value.nothing).into_opt_integer,
         ((r[c2]?.getD Value.nothing).into_opt_boolean).getD true⟩) := by
    simp only [TypedDatabase.get_mission_data, hc1, hc2, hb]
    exact mission_data_scan_eq c1 c2 id b h0 hc
  refine ⟨hmain, ?_⟩
  intro r hf habs
  rw [hmain, hf]
  simp [habs, Value.into_opt_boolean]

/-- C6, witness at the sample database: the single row for id 1 has a null
`isMission` field, and the returned mission defaults to `is_mission = true`;
its icon id 42 is carried over. -/
theorem get_mission_data_first_match_default_true_witness :
    sample_db.get_mission_data 1 = .ok (some ⟨some 42, true⟩) := by
  have h := get_mission_data_first_match_default_true sample_db 1 1 2
    [[Value.integer 1, Value.integer 42, Value.nothing]]
    rfl rfl rfl (by decide) (by decide)
  exact (h.2 [Value.integer 1, Value.integer 42, Value.nothing] (by decide) rfl).trans
    (by rfl)

/-- C7, counterexample. The claim says `get_render_image` considers ONLY the
first matching row and yields "not found" when that row's icon-asset is not
text, never returning a value from a later matching row. In the sample
database, the first row matching id 1 has the integer 5 (not text) as its
icon-asset, yet the query returns "img.png" taken from the LATER matching
row: the loop has no early exit for a non-text value and keeps scanning. -/
theorem get_render_image_skips_nontext_match :
    ([[Value.integer 1, Value.nothing, Value.integer 5],
      [Value.integer 1, Value.nothing, Value.text "img.png"]].find? (row_matches 1) =
      some [Value.integer 1, Value.nothing, Value.integer 5]) ∧
    (Value.integer 5).into_opt_text = none ∧
    sample_db.render_comp.as_raw.bucket_at
      (domain_bucket_index sample_db.render_comp.as_raw 1) =
      some [[Value.integer 1, Value.nothing, Value.integer 5],
            [Value.integer 1, Value.nothing, Value.text "img.png"]] ∧
    sample_db.get_render_image 1 = .ok (some "img.png") ∧
    sample_db.get_render_image 1 ≠ .ok none := by
  have h : sample_db.get_render_image 1 = .ok (some "img.png") := by rfl
  exact ⟨by decide, rfl, rfl, h, by rw [h]; simp⟩

/-- C7 (amended): `get_render_image` returns the icon-asset text of the
first row in the bucket whose primary key equals id AND whose icon-asset
field decodes as text; a matching row whose icon-asset is not text is
skipped (the scan continues past it, it is not an error), and when no such
row exists the result is "not found". -/
theorem get_render_image_first_text_match (db : TypedDatabase) (id : Int)
    (b : Bucket)
    (hn : db.render_comp.as_raw.bucket_count ≠ 0)
    (hb : db.render_comp.as_raw.bucket_at
      (domain_bucket_index db.render_comp.as_raw id) = some b)
    (h0 : ∀ x ∈ b, 0 < x.length)
    (h3 : ∀ x ∈ b, row_matches id x = true → 3 ≤ x.length) :
    db.get_render_image id =
      .ok ((b.find? (render_matches id)).bind
        fun r => (r[2]?.getD Value.nothing).into_opt_text) := by
  simp only [TypedDatabase.get_render_image, hb, if_neg hn]
  exact render_image_scan_eq id b h0 h3

/-- C7, witness for the amended theorem at the sample database: the first
matching-and-text row is the second stored row, yielding "img.png". -/
theorem get_render_image_first_text_match_witness :
    sample_db.get_render_image 1 = .ok (some "img.png") := by
  have h := get_render_image_first_text_match sample_db 1
    [[Value.integer 1, Value.nothing, Value.integer 5],
     [Value.integer 1, Value.nothing, Value.text "img.png"]]
    (by decide) rfl (by decide) (by decide)
  exact h.trans (by rfl)

/-- An `Icons` raw table whose schema has no "IconPath" column. -/
def icons_no_path : Table :=
  ⟨1, [[[Value.integer 1, Value.text "ui/icon.png"]]], ["IconID"]⟩

/-- A typed database whose `Icons` table lacks the IconPath column. -/
def db_no_icon_path : TypedDatabase :=
  ⟨sample_plain, sample_plain, sample_plain, sample_plain,
   IconsTable.new icons_no_path, sample_plain, sample_plain, sample_plain,
   MissionsTable.new empty_table, MissionTasksTable.new empty_table,
   sample_plain, sample_plain, sample_plain, sample_plain, sample_plain⟩

/-- C8, counterexample. The claim says `get_icon_path` returns no value
(rather than failing) when the icon-path column is absent from the table's
schema. In fact `get_col(IconPath).expect(..)` panics when the column
resolution is absent, so the query aborts instead of returning `None`. -/
theorem get_icon_path_missing_column_panics :
    db_no_icon_path.icons.get_col IconsColumn.IconPath = none ∧
    db_no_icon_path.get_icon_path 1 = .error "Missing column Icons::IconPath" ∧
    db_no_icon_path.get_icon_path 1 ≠ .ok none := by
  have h : db_no_icon_path.get_icon_path 1 =
      .error "Missing column Icons::IconPath" := by rfl
  exact ⟨rfl, h, by rw [h]; simp⟩

/-- C8 (amended): `get_icon_path` returns the icon-path value of the first
row of the id's bucket whose primary-key field equals id (and `none` when no
row matches), but when the IconPath column is absent from the schema it
panics with "Missing column Icons::IconPath" instead of returning no
value. -/
theorem get_icon_path_behavior (db : TypedDatabase) (id : Int) :
    (db.icons.get_col IconsColumn.IconPath = none →
      db.get_icon_path id = .error "Missing column Icons::IconPath") ∧
    (∀ cp b, db.icons.get_col IconsColumn.IconPath = some cp →
      db.icons.as_raw.bucket_for_hash (u32_of_i32 id) = b →
      (∀ x ∈ b, 0 < x.length) →
      (∀ x ∈ b, row_matches id x = true → cp < x.length) →
      db.get_icon_path id =
        .ok ((b.find? (row_matches id)).bind
          fun r => (r[cp]?.getD Value.nothing).into_opt_text)) := by
  constructor
  · intro h
    simp [TypedDatabase.get_icon_path, h]
  · intro cp b hcp hb h0 hc
    simp only [TypedDatabase.get_icon_path, hcp, hb]
    exact icon_path_scan_eq cp id b h0 hc

/-- C8, witness for the amended theorem at the sample database, where the
IconPath column resolves to index 1 and id 1 matches the first row. -/
theorem get_icon_path_behavior_witness :
    sample_db.get_icon_path 1 = .ok (some "ui/icon.png") := by
  have h := (get_icon_path_behavior sample_db 1).2 1
    [[Value.integer 1, Value.text "ui/icon.png"]]
    rfl rfl (by decide) (by decide)
  exact h.trans (by rfl)

/-- An Objects raw table that claims three buckets but stores none: the
malformed case in which a computed bucket index has no bucket. -/
def malformed_objects : Table := ⟨3, [], []⟩

/-- A typed database whose Objects table is the malformed table above. -/
def db_malformed_objects : TypedDatabase :=
  ⟨sample_plain, sample_plain, sample_plain, sample_plain,
   IconsTable.new empty_table, sample_plain, sample_plain, sample_plain,
   MissionsTable.new empty_table, MissionTasksTable.new empty_table,
   PlainTable.new malformed_objects, sample_plain, sample_plain,
   sample_plain, sample_plain⟩

/-- A typed database all of whose tables are empty (present buckets with
zero rows). -/
def db_all_empty : TypedDatabase :=
  ⟨sample_plain, sample_plain, sample_plain, sample_plain,
   IconsTable.new empty_table, sample_plain, sample_plain, sample_plain,
   MissionsTable.new empty_table, MissionTasksTable.new empty_table,
   sample_plain, sample_plain, sample_plain, sample_plain, sample_plain⟩

/-- C9, counterexample. The claim says every lookup entry point, including
`get_object_name_desc`, yields "not found" when the computed bucket index
has no bucket. In fact `get_object_name_desc` calls
`bucket_at(..).unwrap()`, which panics on a missing bucket instead of
returning `None`. -/
theorem get_object_name_desc_absent_bucket_panics :
    db_malformed_objects.objects.as_raw.bucket_at
      (domain_bucket_index db_malformed_objects.objects.as_raw 0) = none ∧
    db_malformed_objects.get_object_name_desc 0 =
      .error "called Option::unwrap on a None value" ∧
    db_malformed_objects.get_object_name_desc 0 ≠ .ok none := by
  have h : db_malformed_objects.get_object_name_desc 0 =
      .error "called Option::unwrap on a None value" := by rfl
  exact ⟨rfl, h, by rw [h]; simp⟩

/-- C9 (amended): `TypedRow::get` yields "not found" (`None`) when the
computed bucket index has no bucket, and a bucket-scoped scan over a
present-but-empty bucket yields no rows and no error; but the derived
queries that call `bucket_at(..).unwrap()` directly, such as
`get_object_name_desc`, panic on an absent bucket instead of yielding "not
found". -/
theorem absent_bucket_behavior :
    (∀ (t : Table) (ik k : Int) (c : Nat), t.bucket_count ≠ 0 →
      t.bucket_at (TypedRow.get_bucket_index t ik) = none →
      TypedRow.get t ik k c = .ok none) ∧
    (∀ (db : TypedDatabase) (id : Int), db.objects.as_raw.bucket_count ≠ 0 →
      db.objects.as_raw.bucket_at (domain_bucket_index db.objects.as_raw id) = none →
      db.get_object_name_desc id = .error "called Option::unwrap on a None value") ∧
    (∀ (db : TypedDatabase) (id : Int), db.objects.as_raw.bucket_count ≠ 0 →
      db.objects.as_raw.bucket_at (domain_bucket_index db.objects.as_raw id) = some [] →
      db.get_object_name_desc id = .ok none) := by
  refine ⟨?_, ?_, ?_⟩
  · intro t ik k c hn hb
    simp [TypedRow.get, hn, hb]
  · intro db id hn hb
    simp [TypedDatabase.get_object_name_desc, hn, hb]
  · intro db id hn hb
    simp [TypedDatabase.get_object_name_desc, hn, hb, object_name_desc_scan]

/-- C9, witness: the three parts applied to concrete databases — the
`TypedRow::get` primitive on the malformed three-bucket table, the panicking
object query on the same table, and the empty-bucket scan yielding "not
found" without error. -/
theorem absent_bucket_behavior_witness :
    TypedRow.get malformed_objects 0 0 0 = .ok none ∧
    db_malformed_objects.get_object_name_desc 0 =
      .error "called Option::unwrap on a None value" ∧
    db_all_empty.get_object_name_desc 0 = .ok none :=
  ⟨absent_bucket_behavior.1 malformed_objects 0 0 0 (by decide) rfl,
   absent_bucket_behavior.2.1 db_malformed_objects 0 (by decide) rfl,
   absent_bucket_behavior.2.2 db_all_empty 0 (by decide) rfl⟩

/-- C10: when no row of the id's bucket both matches the id and has
component-type 2 — in particular when the id is absent from the bucket
altogether, or present only with other component types — `get_components`
returns the default `Components` value (`render = none`), not an error and
not a distinguishable not-found marker. -/
theorem get_components_default_when_no_render (db : TypedDatabase) (id : Int)
    (b : Bucket)
    (hn : db.comp_reg.as_raw.bucket_count ≠ 0)
    (hb : db.comp_reg.as_raw.bucket_at (domain_bucket_index db.comp_reg.as_raw id) = some b)
    (h0 : ∀ x ∈ b, 0 < x.length)
    (h3 : ∀ x ∈ b, row_matches id x = true → 3 ≤ x.length)
    (hno : ∀ x ∈ b, row_matches id x = true →
      ¬ (x[1]? == some (Value.integer 2)) = true) :
    db.get_components id = .ok Components.default := by
  have hempty : spec_render_rows id b = [] := by
    rw [spec_render_rows, List.filter_eq_nil_iff]
    intro x hx
    simp only [component_render_matches, Bool.and_eq_true, not_and]
    intro hmx
    exact hno x hx hmx
  simp only [TypedDatabase.get_components, hb, if_neg hn]
  rw [components_scan_eq id b Components.default h0 h3, hempty]
  rfl

/-- C10, witness at the sample database: id 3 has no row in the (single)
bucket, and the result is the default `Components` with `render = none`,
indistinguishable from an id present without a type-2 component. -/
theorem get_components_default_when_no_render_witness :
    sample_db.get_components 3 = .ok Components.default := by
  exact get_components_default_when_no_render sample_db 3
    [[Value.integer 1, Value.integer 2, Value.integer 900],
     [Value.integer 1, Value.integer 7, Value.integer 950],
     [Value.integer 1, Value.integer 2, Value.integer 901],
     [Value.integer 2, Value.integer 2, Value.integer 999]]
    (by decide) rfl (by decide) (by decide) (by decide)

end TypedDb
